import Mathlib

/-!
Shallow embedding of `src/main.rs` of the meticulous repository: a winit +
wgpu application shell that creates a window, binds a GPU surface, builds a
render pipeline, and presents one triangle frame per redraw request.

The embedding models the native (non-wasm) code path.  External backend
objects (windows, surfaces, pipelines) are identified by numeric ids supplied
by an `Env` record that stands for the platform and GPU backend; every GPU or
platform call made by the handlers is recorded in an effect trace, in
execution order.  Rust panics (`unwrap` / `expect`) are modelled by the
`Outcome.panic` constructor carrying the panic message and the effects
performed before the panic.
-/

namespace Meticulous

/-- A wgpu `Color` (the code only uses `Color::GREEN`); components are exact
rationals since all values used are exact. -/
structure Color where
  r : ℚ
  g : ℚ
  b : ℚ
  a : ℚ
deriving DecidableEq, Repr

/-- `wgpu::Color::GREEN`. -/
def Color.green : Color := { r := 0, g := 1, b := 0, a := 1 }

/-- The fields of `wgpu::SurfaceConfiguration` the program reads or writes:
width, height, and the texture format (an opaque id). -/
structure SurfaceConfiguration where
  width : Nat
  height : Nat
  format : Nat
deriving DecidableEq, Repr

/-- A window handle; the id distinguishes distinct window objects. -/
structure Window where
  id : Nat
deriving DecidableEq, Repr

/-- A surface handle; the id distinguishes distinct surface objects. -/
structure Surface where
  id : Nat
deriving DecidableEq, Repr

/-- A render pipeline handle: the id distinguishes distinct pipeline objects,
and `format` is the color-target format it was built against
(`swapchain_capabilities.formats[0]` in the source). -/
structure RenderPipeline where
  id : Nat
  format : Nat
deriving DecidableEq, Repr

/-- The single render pass recorded by the redraw handler: it clears the
color attachment to `clearColor` with store op Store, binds one pipeline and
issues one draw over vertex range `[vertexStart, vertexEnd)` and instance
range `[instanceStart, instanceEnd)`; `vertexBuffersBound` counts
`set_vertex_buffer` calls (the source makes none). -/
structure RenderPassRecord where
  clearColor : Color
  store : Bool
  pipelineId : Nat
  vertexStart : Nat
  vertexEnd : Nat
  instanceStart : Nat
  instanceEnd : Nat
  vertexBuffersBound : Nat
deriving DecidableEq, Repr

/-- A finished command buffer: its encoder label and the render passes it
recorded. -/
structure CommandBuffer where
  label : Option String
  passes : List RenderPassRecord
deriving DecidableEq, Repr

/-- One observable platform/GPU call made by a handler, in execution order. -/
inductive Effect where
  | logInfo (msg : String)
  | logWarn (msg : String)
  | createWindow (id : Nat)
  | createSurface (id : Nat)
  | configureSurface (surfaceId : Nat) (config : SurfaceConfiguration)
  | createShaderModule
  | createPipelineLayout
  | createRenderPipeline (id : Nat) (format : Nat)
  | requestRedraw
  | takeWindow
  | exitLoop
  | getCurrentTexture (surfaceId : Nat)
  | createView
  | createCommandEncoder (label : Option String)
  | submit (buffers : List CommandBuffer)
  | present
deriving DecidableEq, Repr

/-- The `Application` struct of `src/main.rs`: four optional lifecycle
resources plus the unconditional GPU context (instance, adapter, device,
queue modelled as opaque ids). -/
structure Application where
  window : Option Window
  surface : Option Surface
  surface_config : Option SurfaceConfiguration
  render_pipeline : Option RenderPipeline
  gpu_instance : Nat
  gpu_adapter : Nat
  gpu_device : Nat
  gpu_queue : Nat
deriving DecidableEq, Repr

/-- `wgpu::SurfaceError` as reported by `Surface::get_current_texture`. -/
inductive SurfaceError where
  | timeout
  | outdated
  | lost
  | outOfMemory
deriving DecidableEq, Repr

/-- Result of a frame acquisition attempt, supplied by the environment:
either the id of the acquired frame texture or a `SurfaceError`. -/
inductive AcquireResult where
  | ok (frameId : Nat)
  | error (e : SurfaceError)
deriving DecidableEq, Repr

/-- The platform and GPU backend as seen by the handlers: fresh resource ids,
the window's reported inner size, whether fallible creation calls succeed,
the backend's default-configuration format (`none` models
`get_default_config` returning `None`), the swapchain capability format list,
and the outcome of frame acquisition.  Per spec section 4.2 the backend's
default configuration is at the requested size, so only its format is
environment-chosen. -/
structure Env where
  newWindowId : Nat
  innerWidth : Nat
  innerHeight : Nat
  createWindowOk : Bool
  newSurfaceId : Nat
  createSurfaceOk : Bool
  defaultConfigFormat : Option Nat
  formats : List Nat
  newPipelineId : Nat
  acquire : AcquireResult
deriving DecidableEq, Repr

/-- Result of delivering one event to the application: either the updated
state, the effect trace and whether `event_loop.exit()` was called, or a
panic (message plus the effects performed before the panic unwound). -/
inductive Outcome where
  | ok (app : Application) (effects : List Effect) (exitRequested : Bool)
  | panic (msg : String) (effects : List Effect)
deriving DecidableEq, Repr

/-- `ApplicationHandler::resumed` (native path): create the window, clamp the
reported inner size to at least 1 in each dimension, create the surface, get
and apply the default configuration at that size, build shader module,
pipeline layout and render pipeline against `formats[0]`, then store all four
resources.  There is no guard against resources already existing. -/
def resumed (env : Env) (app : Application) : Outcome :=
  if env.createWindowOk = false then
    Outcome.panic "failed to create window" []
  else
    let w0 : Nat := Nat.max env.innerWidth 1
    let h0 : Nat := Nat.max env.innerHeight 1
    let effs1 : List Effect :=
      [Effect.createWindow env.newWindowId, Effect.logInfo "created window"]
    if env.createSurfaceOk = false then
      Outcome.panic "failed to create surface" effs1
    else
      let effs2 : List Effect := effs1 ++ [Effect.createSurface env.newSurfaceId]
      match env.defaultConfigFormat with
      | none => Outcome.panic "no default config" effs2
      | some fmt =>
        let config : SurfaceConfiguration := { width := w0, height := h0, format := fmt }
        let effs3 : List Effect := effs2 ++
          [Effect.configureSurface env.newSurfaceId config,
           Effect.createShaderModule, Effect.createPipelineLayout]
        match env.formats with
        | [] => Outcome.panic "index out of bounds" effs3
        | scFmt :: _ =>
          let effs4 : List Effect := effs3 ++
            [Effect.createRenderPipeline env.newPipelineId scFmt]
          Outcome.ok
            { app with
              window := some { id := env.newWindowId },
              surface := some { id := env.newSurfaceId },
              surface_config := some config,
              render_pipeline := some { id := env.newPipelineId, format := scFmt } }
            effs4 false

/-- The render pass recorded on the happy redraw path: clear to
`Color::GREEN`, store, bind the pipeline, `draw(0..3, 0..1)`, no vertex
buffers bound. -/
def trianglePass (pipelineId : Nat) : RenderPassRecord :=
  { clearColor := Color.green, store := true, pipelineId := pipelineId,
    vertexStart := 0, vertexEnd := 3, instanceStart := 0, instanceEnd := 1,
    vertexBuffersBound := 0 }

/-- The full effect trace of a successful redraw: acquire the frame, create a
view, create the encoder labelled "render triangle", submit the single
command buffer holding the single triangle pass, and present. -/
def redrawTrace (surfaceId pipelineId : Nat) : List Effect :=
  [Effect.getCurrentTexture surfaceId, Effect.createView,
   Effect.createCommandEncoder (some "render triangle"),
   Effect.submit [{ label := some "render triangle", passes := [trianglePass pipelineId] }],
   Effect.present]

/-- The `WindowEvent` variants the program matches on; every other variant
falls into the wildcard arm. -/
inductive WindowEvent where
  | closeRequested
  | resized (width height : Nat)
  | redrawRequested
  | other
deriving DecidableEq, Repr

/-- `ApplicationHandler::window_event`:
  * `CloseRequested`: take the window out of the state, then exit the loop;
  * `Resized`: mutate the stored config (panic "valid config" when absent)
    clamping each dimension to at least 1, reconfigure the surface (panic
    "valid config" when absent), and request a redraw when a window is held;
  * `RedrawRequested`: warn and exit when window, surface or pipeline is
    absent; otherwise acquire a frame (panic on acquisition failure with the
    source's expect message), record and submit one command buffer with one
    clearing render pass drawing 3 vertices and 1 instance, and present;
  * anything else: no operation. -/
def window_event (env : Env) (app : Application) : WindowEvent → Outcome
  | WindowEvent.closeRequested =>
      Outcome.ok { app with window := none } [Effect.takeWindow, Effect.exitLoop] true
  | WindowEvent.resized w h =>
      match app.surface_config with
      | none => Outcome.panic "valid config" [Effect.logInfo "resizing too"]
      | some conf =>
        let conf2 : SurfaceConfiguration :=
          { conf with width := Nat.max w 1, height := Nat.max h 1 }
        match app.surface with
        | none => Outcome.panic "valid config" [Effect.logInfo "resizing too"]
        | some s =>
          Outcome.ok { app with surface_config := some conf2 }
            ([Effect.logInfo "resizing too", Effect.configureSurface s.id conf2] ++
              (match app.window with
               | some _ => [Effect.requestRedraw]
               | none => []))
            false
  | WindowEvent.redrawRequested =>
      match app.window with
      | none =>
          Outcome.ok app [Effect.logWarn "redraw requested on closed window", Effect.exitLoop] true
      | some _ =>
        match app.surface with
        | none =>
            Outcome.ok app [Effect.logWarn "redraw requested on no surface", Effect.exitLoop] true
        | some s =>
          match app.render_pipeline with
          | none =>
              Outcome.ok app [Effect.logWarn "redraw requested with no pipeline", Effect.exitLoop] true
          | some p =>
            match env.acquire with
            | AcquireResult.error _ =>
                Outcome.panic "Failed to acquire next swap chain texture" []
            | AcquireResult.ok _ =>
                Outcome.ok app (redrawTrace s.id p.id) false
  | WindowEvent.other => Outcome.ok app [] false

/-- An event as delivered by the winit event loop: the `resumed` lifecycle
callback or a `window_event`. -/
inductive AppEvent where
  | resumedEvent
  | windowEvent (e : WindowEvent)
deriving DecidableEq, Repr

/-- Deliver a single event to the application. -/
def step (env : Env) (app : Application) : AppEvent → Outcome
  | AppEvent.resumedEvent => resumed env app
  | AppEvent.windowEvent e => window_event env app e

/-- The serial event loop: deliver events one at a time, concatenating the
effect traces; once `event_loop.exit()` has been signalled no further event
is processed, and a panic aborts the run. -/
def run (env : Env) (app : Application) : List AppEvent → Outcome
  | [] => Outcome.ok app [] false
  | e :: rest =>
      match step env app e with
      | Outcome.panic msg effs => Outcome.panic msg effs
      | Outcome.ok app2 effs exited =>
          if exited then Outcome.ok app2 effs true
          else
            match run env app2 rest with
            | Outcome.panic msg effs2 => Outcome.panic msg (effs ++ effs2)
            | Outcome.ok app3 effs2 ex2 => Outcome.ok app3 (effs ++ effs2) ex2

/-- Number of `queue.submit` calls in a trace. -/
def countSubmits (t : List Effect) : Nat :=
  t.countP fun e =>
    match e with
    | Effect.submit _ => true
    | _ => false

/-- Number of `present` calls in a trace. -/
def countPresents (t : List Effect) : Nat :=
  t.countP fun e =>
    match e with
    | Effect.present => true
    | _ => false

/-- Number of GPU frame calls (frame acquisition, submit, present) in a
trace. -/
def gpuCallCount (t : List Effect) : Nat :=
  t.countP fun e =>
    match e with
    | Effect.getCurrentTexture _ => true
    | Effect.submit _ => true
    | Effect.present => true
    | _ => false

/-- For each `present` in a trace, the configuration last applied to the
surface at that point (the backend semantics: a presented frame reflects the
configuration in force when it was acquired and presented), threading the
configuration applied so far. -/
def presentedConfigsFrom (applied : Option SurfaceConfiguration) :
    List Effect → List (Option SurfaceConfiguration)
  | [] => []
  | Effect.configureSurface _ c :: rest => presentedConfigsFrom (some c) rest
  | Effect.present :: rest => applied :: presentedConfigsFrom applied rest
  | _ :: rest => presentedConfigsFrom applied rest

/-- For each `present` in a trace, the configuration last applied within the
trace itself before that present. -/
def presentedConfigs (t : List Effect) : List (Option SurfaceConfiguration) :=
  presentedConfigsFrom none t

/-- Number of `configure` calls on the surface in a trace. -/
def countConfigures (t : List Effect) : Nat :=
  t.countP fun e =>
    match e with
    | Effect.configureSurface _ _ => true
    | _ => false

/-- Number of warning logs and loop-exit signals in a trace (zero means the
trace is not a warn-and-exit handling). -/
def countWarnsAndExits (t : List Effect) : Nat :=
  t.countP fun e =>
    match e with
    | Effect.logWarn _ => true
    | Effect.exitLoop => true
    | _ => false

/-- A concrete environment in which every backend call succeeds. -/
def envA : Env :=
  { newWindowId := 1, innerWidth := 640, innerHeight := 480, createWindowOk := true,
    newSurfaceId := 11, createSurfaceOk := true, defaultConfigFormat := some 5,
    formats := [5, 6], newPipelineId := 21, acquire := AcquireResult.ok 0 }

/-- The environment `envA` except that frame acquisition fails with a lost
surface. -/
def envLost : Env := { envA with acquire := AcquireResult.error SurfaceError.lost }

/-- The environment `envA` except that the window reports inner size
`(0, 0)`. -/
def envZero : Env := { envA with innerWidth := 0, innerHeight := 0 }

/-- A concrete application state before any activation: all four lifecycle
resources absent. -/
def appUninit : Application :=
  { window := none, surface := none, surface_config := none, render_pipeline := none,
    gpu_instance := 100, gpu_adapter := 101, gpu_device := 102, gpu_queue := 103 }

/-- A concrete application state after a first activation: window `0`,
surface `10`, a `640 × 480` configuration of format `5`, pipeline `20`. -/
def appActive : Application :=
  { window := some { id := 0 }, surface := some { id := 10 },
    surface_config := some { width := 640, height := 480, format := 5 },
    render_pipeline := some { id := 20, format := 5 },
    gpu_instance := 100, gpu_adapter := 101, gpu_device := 102, gpu_queue := 103 }

/-- C10: handling a close-requested event sets only the `window` field to
`none`; the surface, surface configuration, render pipeline, and the four
GPU-context fields all keep their previous values. -/
theorem closeRequested_only_clears_window (env : Env) (app : Application) :
    window_event env app WindowEvent.closeRequested =
      Outcome.ok
        { window := none, surface := app.surface, surface_config := app.surface_config,
          render_pipeline := app.render_pipeline, gpu_instance := app.gpu_instance,
          gpu_adapter := app.gpu_adapter, gpu_device := app.gpu_device,
          gpu_queue := app.gpu_queue }
        [Effect.takeWindow, Effect.exitLoop] true := rfl

/-- C9: a close-requested event releases the window reference (`takeWindow`,
trace index 0) strictly before signalling loop exit (`exitLoop`, trace index
1), and the resulting exited state is terminal: the event loop processes no
event delivered after the close. -/
theorem closeRequested_release_before_exit_terminal
    (env : Env) (app : Application) (evs : List AppEvent) :
    window_event env app WindowEvent.closeRequested =
      Outcome.ok { app with window := none } [Effect.takeWindow, Effect.exitLoop] true ∧
    [Effect.takeWindow, Effect.exitLoop].indexOf Effect.takeWindow <
      [Effect.takeWindow, Effect.exitLoop].indexOf Effect.exitLoop ∧
    run env app (AppEvent.windowEvent WindowEvent.closeRequested :: evs) =
      run env app [AppEvent.windowEvent WindowEvent.closeRequested] := by
  exact ⟨rfl, by decide, rfl⟩

/-- C2: a redraw-requested event delivered while the window, the surface, or
the render pipeline is absent performs no GPU frame call (no acquisition, no
submit, no present), logs a warning, leaves the state unchanged, and signals
the event loop to exit. -/
theorem redraw_missing_resources_warns_and_exits (env : Env) (app : Application)
    (hmiss : app.window = none ∨ app.surface = none ∨ app.render_pipeline = none) :
    ∃ msg, window_event env app WindowEvent.redrawRequested =
        Outcome.ok app [Effect.logWarn msg, Effect.exitLoop] true ∧
      gpuCallCount [Effect.logWarn msg, Effect.exitLoop] = 0 := by
  match hw : app.window with
  | none =>
      exact ⟨"redraw requested on closed window", by simp [window_event, hw], rfl⟩
  | some wi =>
    match hs : app.surface with
    | none =>
        exact ⟨"redraw requested on no surface", by simp [window_event, hw, hs], rfl⟩
    | some s =>
      match hp : app.render_pipeline with
      | none =>
          exact ⟨"redraw requested with no pipeline", by simp [window_event, hw, hs, hp], rfl⟩
      | some p =>
          rcases hmiss with hmiss | hmiss | hmiss <;> simp_all

/-- C2 witness: on the uninitialized state the redraw handler warns, exits,
and makes no GPU call. -/
theorem redraw_missing_resources_warns_and_exits_witness :
    ∃ msg, window_event envA appUninit WindowEvent.redrawRequested =
        Outcome.ok appUninit [Effect.logWarn msg, Effect.exitLoop] true ∧
      gpuCallCount [Effect.logWarn msg, Effect.exitLoop] = 0 :=
  redraw_missing_resources_warns_and_exits envA appUninit (Or.inl rfl)

/-- C3: a resize event with reported dimensions `(w, h)` — including zero
dimensions — stores and applies to the surface, within the same event, a
configuration of width exactly `max w 1` and height exactly `max h 1`. -/
theorem resized_clamps_and_reconfigures (env : Env) (app : Application)
    (w h : Nat) (conf : SurfaceConfiguration) (s : Surface)
    (hc : app.surface_config = some conf) (hs : app.surface = some s) :
    window_event env app (WindowEvent.resized w h) =
      Outcome.ok
        { app with
          surface_config := some { conf with width := Nat.max w 1, height := Nat.max h 1 } }
        ([Effect.logInfo "resizing too",
          Effect.configureSurface s.id
            { conf with width := Nat.max w 1, height := Nat.max h 1 }] ++
          (match app.window with
           | some _ => [Effect.requestRedraw]
           | none => []))
        false := by
  simp [window_event, hc, hs]

/-- C3 witness: resizing the active state to `(0, 1080)` applies the clamped
`1 × 1080` configuration to surface `10` and requests a redraw. -/
theorem resized_clamps_and_reconfigures_witness :
    window_event envA appActive (WindowEvent.resized 0 1080) =
      Outcome.ok
        { window := some { id := 0 }, surface := some { id := 10 },
          surface_config := some { width := 1, height := 1080, format := 5 },
          render_pipeline := some { id := 20, format := 5 },
          gpu_instance := 100, gpu_adapter := 101, gpu_device := 102, gpu_queue := 103 }
        [Effect.logInfo "resizing too",
         Effect.configureSurface 10 { width := 1, height := 1080, format := 5 },
         Effect.requestRedraw]
        false :=
  resized_clamps_and_reconfigures envA appActive 0 1080
    { width := 640, height := 480, format := 5 } { id := 10 } rfl rfl

/-- C5: a redraw-requested event processed with window, surface and pipeline
all present (and the frame acquired) performs exactly one submit and exactly
one present, submitting a single command buffer whose single render pass
clears the color target and draws 3 vertices and 1 instance with no vertex
buffers bound. -/
theorem redraw_one_submit_one_present (env : Env) (app : Application)
    (wi : Window) (s : Surface) (p : RenderPipeline) (fr : Nat)
    (hw : app.window = some wi) (hs : app.surface = some s)
    (hp : app.render_pipeline = some p) (ha : env.acquire = AcquireResult.ok fr) :
    window_event env app WindowEvent.redrawRequested =
      Outcome.ok app (redrawTrace s.id p.id) false ∧
    countSubmits (redrawTrace s.id p.id) = 1 ∧
    countPresents (redrawTrace s.id p.id) = 1 ∧
    Effect.submit [{ label := some "render triangle", passes := [trianglePass p.id] }] ∈
      redrawTrace s.id p.id ∧
    (trianglePass p.id).clearColor = Color.green ∧
    (trianglePass p.id).vertexEnd - (trianglePass p.id).vertexStart = 3 ∧
    (trianglePass p.id).instanceEnd - (trianglePass p.id).instanceStart = 1 ∧
    (trianglePass p.id).vertexBuffersBound = 0 := by
  refine ⟨by simp [window_event, hw, hs, hp, ha], rfl, rfl, ?_, rfl, rfl, rfl, rfl⟩
  simp [redrawTrace]

/-- C5 witness: in the active state with successful acquisition, the redraw
handler submits once and presents once with the clearing 3-vertex pass. -/
theorem redraw_one_submit_one_present_witness :
    window_event envA appActive WindowEvent.redrawRequested =
      Outcome.ok appActive (redrawTrace 10 20) false ∧
    countSubmits (redrawTrace 10 20) = 1 ∧
    countPresents (redrawTrace 10 20) = 1 ∧
    Effect.submit [{ label := some "render triangle", passes := [trianglePass 20] }] ∈
      redrawTrace 10 20 ∧
    (trianglePass 20).clearColor = Color.green ∧
    (trianglePass 20).vertexEnd - (trianglePass 20).vertexStart = 3 ∧
    (trianglePass 20).instanceEnd - (trianglePass 20).instanceStart = 1 ∧
    (trianglePass 20).vertexBuffersBound = 0 :=
  redraw_one_submit_one_present envA appActive { id := 0 } { id := 10 }
    { id := 20, format := 5 } 0 rfl rfl rfl rfl

/-- C4: a resize to `(w, h)` followed by a redraw with no intervening resize
presents exactly one frame, and that frame uses the post-resize clamped
configuration: the configuration in force at the present is the clamped
`(max w 1, max h 1)` one, never the pre-resize configuration. -/
theorem resize_then_redraw_presents_clamped_config (env : Env) (app : Application)
    (w h : Nat) (wi : Window) (s : Surface) (conf : SurfaceConfiguration)
    (p : RenderPipeline) (fr : Nat)
    (hw : app.window = some wi) (hs : app.surface = some s)
    (hc : app.surface_config = some conf) (hp : app.render_pipeline = some p)
    (ha : env.acquire = AcquireResult.ok fr) :
    run env app [AppEvent.windowEvent (WindowEvent.resized w h),
                 AppEvent.windowEvent WindowEvent.redrawRequested] =
      Outcome.ok
        { app with
          surface_config := some { conf with width := Nat.max w 1, height := Nat.max h 1 } }
        ([Effect.logInfo "resizing too",
          Effect.configureSurface s.id
            { conf with width := Nat.max w 1, height := Nat.max h 1 },
          Effect.requestRedraw] ++ redrawTrace s.id p.id)
        false ∧
    presentedConfigs
        ([Effect.logInfo "resizing too",
          Effect.configureSurface s.id
            { conf with width := Nat.max w 1, height := Nat.max h 1 },
          Effect.requestRedraw] ++ redrawTrace s.id p.id) =
      [some { conf with width := Nat.max w 1, height := Nat.max h 1 }] := by
  constructor
  · simp [run, step, window_event, hw, hs, hc, hp, ha]
  · simp [presentedConfigs, presentedConfigsFrom, redrawTrace]

/-- C4 witness: resizing the active state to `(800, 600)` and then redrawing
presents one frame under the `800 × 600` configuration. -/
theorem resize_then_redraw_presents_clamped_config_witness :
    run envA appActive [AppEvent.windowEvent (WindowEvent.resized 800 600),
                        AppEvent.windowEvent WindowEvent.redrawRequested] =
      Outcome.ok
        { window := some { id := 0 }, surface := some { id := 10 },
          surface_config := some { width := 800, height := 600, format := 5 },
          render_pipeline := some { id := 20, format := 5 },
          gpu_instance := 100, gpu_adapter := 101, gpu_device := 102, gpu_queue := 103 }
        ([Effect.logInfo "resizing too",
          Effect.configureSurface 10 { width := 800, height := 600, format := 5 },
          Effect.requestRedraw] ++ redrawTrace 10 20)
        false ∧
    presentedConfigs
        ([Effect.logInfo "resizing too",
          Effect.configureSurface 10 { width := 800, height := 600, format := 5 },
          Effect.requestRedraw] ++ redrawTrace 10 20) =
      [some { width := 800, height := 600, format := 5 }] :=
  resize_then_redraw_presents_clamped_config envA appActive 800 600 { id := 0 }
    { id := 10 } { width := 640, height := 480, format := 5 } { id := 20, format := 5 } 0
    rfl rfl rfl rfl rfl

/-- C8: an activation whose reported window size is `(0, 0)` does not panic:
the applied surface configuration is clamped to width 1 and height 1 (both
at least 1) and all four resources are bound. -/
theorem activation_zero_size_clamps_and_binds (env : Env) (app : Application)
    (fmt scFmt : Nat) (rest : List Nat)
    (h0 : env.innerWidth = 0) (h1 : env.innerHeight = 0)
    (hcw : env.createWindowOk = true) (hcs : env.createSurfaceOk = true)
    (hdc : env.defaultConfigFormat = some fmt) (hfs : env.formats = scFmt :: rest) :
    resumed env app =
      Outcome.ok
        { app with
          window := some { id := env.newWindowId },
          surface := some { id := env.newSurfaceId },
          surface_config := some { width := 1, height := 1, format := fmt },
          render_pipeline := some { id := env.newPipelineId, format := scFmt } }
        [Effect.createWindow env.newWindowId, Effect.logInfo "created window",
         Effect.createSurface env.newSurfaceId,
         Effect.configureSurface env.newSurfaceId { width := 1, height := 1, format := fmt },
         Effect.createShaderModule, Effect.createPipelineLayout,
         Effect.createRenderPipeline env.newPipelineId scFmt]
        false ∧
    1 ≤ (SurfaceConfiguration.mk 1 1 fmt).width ∧
    1 ≤ (SurfaceConfiguration.mk 1 1 fmt).height := by
  refine ⟨?_, Nat.le_refl 1, Nat.le_refl 1⟩
  simp [resumed, h0, h1, hcw, hcs, hdc, hfs]

/-- C8 witness: activation with reported size `(0, 0)` in the concrete
zero-size environment binds a `1 × 1` configuration without panicking. -/
theorem activation_zero_size_clamps_and_binds_witness :
    resumed envZero appUninit =
      Outcome.ok
        { window := some { id := 1 }, surface := some { id := 11 },
          surface_config := some { width := 1, height := 1, format := 5 },
          render_pipeline := some { id := 21, format := 5 },
          gpu_instance := 100, gpu_adapter := 101, gpu_device := 102, gpu_queue := 103 }
        [Effect.createWindow 1, Effect.logInfo "created window",
         Effect.createSurface 11,
         Effect.configureSurface 11 { width := 1, height := 1, format := 5 },
         Effect.createShaderModule, Effect.createPipelineLayout,
         Effect.createRenderPipeline 21 5]
        false ∧
    1 ≤ (SurfaceConfiguration.mk 1 1 5).width ∧
    1 ≤ (SurfaceConfiguration.mk 1 1 5).height :=
  activation_zero_size_clamps_and_binds envZero appUninit 5 5 [6]
    rfl rfl rfl rfl rfl rfl

/-- The state produced by delivering a second activation to `appActive` under
`envA`: every lifecycle resource replaced by a freshly created one. -/
def appActiveResumed : Application :=
  { window := some { id := 1 }, surface := some { id := 11 },
    surface_config := some { width := 640, height := 480, format := 5 },
    render_pipeline := some { id := 21, format := 5 },
    gpu_instance := 100, gpu_adapter := 101, gpu_device := 102, gpu_queue := 103 }

/-- The effect trace of that second activation. -/
def effsResumeA : List Effect :=
  [Effect.createWindow 1, Effect.logInfo "created window",
   Effect.createSurface 11,
   Effect.configureSurface 11 { width := 640, height := 480, format := 5 },
   Effect.createShaderModule, Effect.createPipelineLayout,
   Effect.createRenderPipeline 21 5]

/-- C1 counterexample: delivering a second activation to the fully-active
state `appActive` is not a no-op — it replaces the window, surface and
pipeline identities with fresh ones, re-creates the window, and reconfigures
the surface. -/
theorem second_activation_not_noop_counterexample :
    resumed envA appActive = Outcome.ok appActiveResumed effsResumeA false ∧
    appActiveResumed.window ≠ appActive.window ∧
    appActiveResumed.surface ≠ appActive.surface ∧
    appActiveResumed.render_pipeline ≠ appActive.render_pipeline ∧
    countConfigures effsResumeA = 1 ∧
    Effect.createWindow 1 ∈ effsResumeA := by
  refine ⟨rfl, by decide, by decide, by decide, rfl, by decide⟩

/-- C1 amended: delivering a second activation while all resources exist
re-creates the window, surface and render pipeline (the stored handles become
the freshly created ones), applies a fresh configuration to the new surface,
and discards the previous resources — it is not an idempotent no-op. -/
theorem second_activation_recreates_and_reconfigures (env : Env) (app : Application)
    (wi : Window) (s : Surface) (conf : SurfaceConfiguration) (p : RenderPipeline)
    (fmt scFmt : Nat) (rest : List Nat)
    (hw : app.window = some wi) (hs : app.surface = some s)
    (hc : app.surface_config = some conf) (hp : app.render_pipeline = some p)
    (hcw : env.createWindowOk = true) (hcs : env.createSurfaceOk = true)
    (hdc : env.defaultConfigFormat = some fmt) (hfs : env.formats = scFmt :: rest) :
    resumed env app =
      Outcome.ok
        { app with
          window := some { id := env.newWindowId },
          surface := some { id := env.newSurfaceId },
          surface_config := some { width := Nat.max env.innerWidth 1,
                                   height := Nat.max env.innerHeight 1, format := fmt },
          render_pipeline := some { id := env.newPipelineId, format := scFmt } }
        [Effect.createWindow env.newWindowId, Effect.logInfo "created window",
         Effect.createSurface env.newSurfaceId,
         Effect.configureSurface env.newSurfaceId
           { width := Nat.max env.innerWidth 1,
             height := Nat.max env.innerHeight 1, format := fmt },
         Effect.createShaderModule, Effect.createPipelineLayout,
         Effect.createRenderPipeline env.newPipelineId scFmt]
        false ∧
    countConfigures
        [Effect.createWindow env.newWindowId, Effect.logInfo "created window",
         Effect.createSurface env.newSurfaceId,
         Effect.configureSurface env.newSurfaceId
           { width := Nat.max env.innerWidth 1,
             height := Nat.max env.innerHeight 1, format := fmt },
         Effect.createShaderModule, Effect.createPipelineLayout,
         Effect.createRenderPipeline env.newPipelineId scFmt] = 1 := by
  refine ⟨?_, rfl⟩
  simp [resumed, hcw, hcs, hdc, hfs]

/-- C1 amended witness: the second activation on the concrete active state
re-creates the resources and reconfigures the surface. -/
theorem second_activation_recreates_and_reconfigures_witness :
    resumed envA appActive =
      Outcome.ok appActiveResumed effsResumeA false ∧
    countConfigures effsResumeA = 1 :=
  second_activation_recreates_and_reconfigures envA appActive { id := 0 } { id := 10 }
    { width := 640, height := 480, format := 5 } { id := 20, format := 5 } 5 5 [6]
    rfl rfl rfl rfl rfl rfl rfl rfl

/-- C6 counterexample: a resized event delivered before activation (empty
state) is not handled by the warn-and-exit policy — the handler panics with
the expect message "valid config", logging no warning and never signalling
the event loop to exit. -/
theorem resize_before_activation_panics_counterexample :
    window_event envA appUninit (WindowEvent.resized 5 5) =
      Outcome.panic "valid config" [Effect.logInfo "resizing too"] ∧
    countWarnsAndExits [Effect.logInfo "resizing too"] = 0 :=
  ⟨rfl, rfl⟩

/-- C6 amended: operating on absent resources is handled by warn-and-exit
only in the redraw handler; a resized event delivered before activation
instead panics (expect "valid config") with no warning and no exit signal, so
warn-and-exit is not the handling of every pre-activation event. -/
theorem preactivation_resize_panics_redraw_warns (env : Env) (app : Application)
    (w h : Nat) (hc : app.surface_config = none) (hw : app.window = none) :
    window_event env app (WindowEvent.resized w h) =
      Outcome.panic "valid config" [Effect.logInfo "resizing too"] ∧
    countWarnsAndExits [Effect.logInfo "resizing too"] = 0 ∧
    window_event env app WindowEvent.redrawRequested =
      Outcome.ok app
        [Effect.logWarn "redraw requested on closed window", Effect.exitLoop] true := by
  refine ⟨by simp [window_event, hc], rfl, by simp [window_event, hw]⟩

/-- C6 amended witness: on the uninitialized state a resize panics while a
redraw warns and exits. -/
theorem preactivation_resize_panics_redraw_warns_witness :
    window_event envA appUninit (WindowEvent.resized 5 7) =
      Outcome.panic "valid config" [Effect.logInfo "resizing too"] ∧
    countWarnsAndExits [Effect.logInfo "resizing too"] = 0 ∧
    window_event envA appUninit WindowEvent.redrawRequested =
      Outcome.ok appUninit
        [Effect.logWarn "redraw requested on closed window", Effect.exitLoop] true :=
  preactivation_resize_panics_redraw_warns envA appUninit 5 7 rfl rfl

/-- C7 counterexample: when frame acquisition fails (lost surface) in the
fully-active state, the redraw handler does not return a `SurfaceError`
result to any caller — the handler's signature returns nothing — it panics
with the expect message, having performed no submit and no present. -/
theorem acquire_failure_panics_counterexample :
    window_event envLost appActive WindowEvent.redrawRequested =
      Outcome.panic "Failed to acquire next swap chain texture" [] ∧
    countSubmits [] = 0 ∧
    countPresents [] = 0 :=
  ⟨rfl, rfl, rfl⟩

/-- C7 amended: on every frame-acquisition failure the redraw handler neither
retries acquisition nor presents against the failed surface; instead of
propagating a `SurfaceError` value to a caller, it panics with the message
"Failed to acquire next swap chain texture", aborting the run. -/
theorem acquire_failure_aborts_without_present (env : Env) (app : Application)
    (wi : Window) (s : Surface) (p : RenderPipeline) (err : SurfaceError)
    (hw : app.window = some wi) (hs : app.surface = some s)
    (hp : app.render_pipeline = some p) (ha : env.acquire = AcquireResult.error err) :
    window_event env app WindowEvent.redrawRequested =
      Outcome.panic "Failed to acquire next swap chain texture" [] ∧
    countSubmits [] = 0 ∧
    countPresents [] = 0 := by
  refine ⟨by simp [window_event, hw, hs, hp, ha], rfl, rfl⟩

/-- C7 amended witness: losing the surface in the concrete active state makes
the redraw handler panic with no submit and no present. -/
theorem acquire_failure_aborts_without_present_witness :
    window_event envLost appActive WindowEvent.redrawRequested =
      Outcome.panic "Failed to acquire next swap chain texture" [] ∧
    countSubmits [] = 0 ∧
    countPresents [] = 0 :=
  acquire_failure_aborts_without_present envLost appActive { id := 0 } { id := 10 }
    { id := 20, format := 5 } SurfaceError.lost rfl rfl rfl rfl

end Meticulous
